import Mathlib

/-!
Verification of the PyFunceble availability-checker core against its
natural-language specification.

The development shallowly embeds:
  * the external extra-rules engine
    (src/PyFunceble/checker/availability/extras/external.py),
  * the URL availability pipeline
    (src/PyFunceble/checker/availability/url.py),
  * the Requester configuration layer
    (src/PyFunceble/query/requests/requester.py).

Rule dictionaries are heterogeneous Python dicts, so we embed a small
Python value domain first.  Code that lives outside the provided sources
(the checker/extra-rule base classes, the regex helper, the storage
constants) is modelled from the specification; each such definition says
so in its doc comment.
-/

namespace PyFun

/-- A Python value, as far as the embedded code inspects one: ints,
floats, bools, strings, lists, string-keyed dicts and `None`. -/
inductive PyVal where
  | int (n : Int)
  | float (q : Rat)
  | bool (b : Bool)
  | str (s : String)
  | list (xs : List PyVal)
  | dict (kvs : List (String × PyVal))
  | pynone

/-- The Python exception classes the embedded code can raise. -/
inductive PyErr where
  | typeError
  | valueError
  | keyError
  | unboundLocalError
deriving Repr, DecidableEq

/-- Python truthiness of a value (`bool(v)`). -/
def PyVal.truthy : PyVal → Bool
  | .int n => n != 0
  | .float q => q != 0
  | .bool b => b
  | .str s => s != ""
  | .list xs => !xs.isEmpty
  | .dict kvs => !kvs.isEmpty
  | .pynone => false

/-- Decimal digit accumulation over a character list; `none` on the
first non-digit. -/
def digitsValAux : List Char → Nat → Option Nat
  | [], acc => some acc
  | c :: cs, acc =>
    if c.isDigit then digitsValAux cs (acc * 10 + (c.toNat - 48)) else none

/-- The value of a non-empty all-digit character list. -/
def digitsVal : List Char → Option Nat
  | [] => none
  | cs => digitsValAux cs 0

/-- Parsing of a decimal integer literal with optional sign, as Python
`int(str)` accepts one. -/
def pyParseInt : List Char → Option Int
  | '-' :: cs => (digitsVal cs).map fun n => -(n : Int)
  | '+' :: cs => (digitsVal cs).map fun n => (n : Int)
  | cs => (digitsVal cs).map fun n => (n : Int)

/-- Python `int(v)`: identity on ints, truncation toward zero on floats,
0/1 on bools, decimal parsing on strings (`ValueError` on failure),
`TypeError` elsewhere. -/
def PyVal.toPyInt : PyVal → Except PyErr Int
  | .int n => .ok n
  | .float q => .ok (if 0 ≤ q then q.floor else -((-q).floor))
  | .bool b => .ok (if b then 1 else 0)
  | .str s =>
    match pyParseInt s.data with
    | some n => .ok n
    | none => .error .valueError
  | .list _ => .error .typeError
  | .dict _ => .error .typeError
  | .pynone => .error .typeError

/-- Python iteration (`for x in v`): lists yield their elements, strings
their characters, dicts their keys; other values raise `TypeError`. -/
def PyVal.toPyIter : PyVal → Except PyErr (List PyVal)
  | .list xs => .ok xs
  | .str s => .ok (s.data.map fun c => .str (String.mk [c]))
  | .dict kvs => .ok (kvs.map fun kv => .str kv.1)
  | .int _ => .error .typeError
  | .float _ => .error .typeError
  | .bool _ => .error .typeError
  | .pynone => .error .typeError

/-- A rule dictionary: a Python dict with string keys. -/
def Rule : Type := List (String × PyVal)

/-- Dict lookup (`rule[k]` when present, else `none`). -/
def Rule.find (r : Rule) (k : String) : Option PyVal :=
  List.lookup k r

/-- Python `k in rule`. -/
def Rule.hasKey (r : Rule) (k : String) : Bool :=
  (Rule.find r k).isSome

/-- Whether an optional Python value equals a given string
(non-strings and absent values compare unequal, as in Python). -/
def isStrEq (v : Option PyVal) (s : String) : Bool :=
  match v with
  | some (.str t) => t == s
  | _ => false

/-- Truthiness of an optional string field of the status record
(`None` and the empty string are falsy). -/
def optTruthy : Option String → Bool
  | none => false
  | some s => s != ""

/-- Modelled from the spec: the status constants of `PyFunceble.storage`
(not under the provided sources).  The spec calls the two verdicts `UP`
and `DOWN`; the syntax probe's non-verdict marker is `INVALID`. -/
def STATUS_UP : String := "UP"

/-- Modelled from the spec: the `DOWN` status constant. -/
def STATUS_DOWN : String := "DOWN"

/-- Modelled from the spec: the marker set by the syntax probe when the
subject fails syntax validation; it is neither `UP` nor `DOWN`. -/
def STATUS_INVALID : String := "INVALID"

/-- The evolving verdict record
(`PyFunceble.checker.availability.status.AvailabilityCheckerStatus`,
restricted to the fields the embedded code reads or writes).  The source
field `url_syntax` is embedded as `url_syntax_ok`. -/
structure AvailabilityCheckerStatus where
  subject : String
  netloc : String
  status : Option String
  status_source : Option String
  http_status_code : Option Int
  status_after_extra_rules : Option String
  url_syntax_ok : Bool

/-- Modelled from the spec: `ExtraRuleHandlerBase.switch_to_up` (base
class not under the provided sources).  A firing transition sets the
terminal status `UP`, the source tag `EXTRA_RULES`, and flips the
terminal flag (spec section on the rule engine). -/
def switch_to_up (st : AvailabilityCheckerStatus) : AvailabilityCheckerStatus :=
  { st with
    status := some STATUS_UP
    status_source := some "EXTRA_RULES"
    status_after_extra_rules := some STATUS_UP }

/-- Modelled from the spec: `ExtraRuleHandlerBase.switch_to_down`,
symmetric to `switch_to_up`. -/
def switch_to_down (st : AvailabilityCheckerStatus) : AvailabilityCheckerStatus :=
  { st with
    status := some STATUS_DOWN
    status_source := some "EXTRA_RULES"
    status_after_extra_rules := some STATUS_DOWN }

/-- The response of the live GET the headers/body checks issue. -/
structure HttpResponse where
  headers : List (String × String)
  body : String

/-- Evaluation environment of the rule engine: the regex engine
(`PyFunceble.helpers.regex`, not under the provided sources) as two
abstract predicates, and the observed network response.  `rmatch` is
match-at-start (`re.match`), `rsearch` is search-anywhere
(`re.search`). -/
structure RulesEnv where
  rmatch : String → String → Bool
  rsearch : String → String → Bool
  response : HttpResponse

/-- Modelled from the spec: whether `required_headers_patterns` (a dict
mapping header name to a list of regexes) fires against the observed
response: a header matches if present and at least one of its values
matches at least one pattern; the check fires if any configured header
matches (OR across headers). -/
def headerPatternsFire (env : RulesEnv) (patterns : PyVal) : Bool :=
  match patterns with
  | .dict kvs =>
    kvs.any fun kv =>
      match kv.2 with
      | .list pats =>
        env.response.headers.any fun hv =>
          hv.1 == kv.1 && pats.any fun p =>
            match p with
            | .str ps => env.rsearch ps hv.2
            | _ => false
      | _ => false
  | _ => false

/-- Modelled from the spec: `ExtraRuleHandlerBase.do_on_header_match`
(base class not under the provided sources): issue the live GET and call
`method` when the header patterns fire. -/
def do_on_header_match (env : RulesEnv) (patterns : PyVal)
    (method : AvailabilityCheckerStatus → AvailabilityCheckerStatus)
    (st : AvailabilityCheckerStatus) : AvailabilityCheckerStatus :=
  if headerPatternsFire env patterns then method st else st

/-- Modelled from the spec: whether `required_body_patterns` (a list of
regexes) fires: any pattern found anywhere in the response body. -/
def bodyPatternsFire (env : RulesEnv) (patterns : PyVal) : Bool :=
  match patterns with
  | .list pats =>
    pats.any fun p =>
      match p with
      | .str ps => env.rsearch ps env.response.body
      | _ => false
  | _ => false

/-- Modelled from the spec: `ExtraRuleHandlerBase.do_on_body_match`. -/
def do_on_body_match (env : RulesEnv) (patterns : PyVal)
    (method : AvailabilityCheckerStatus → AvailabilityCheckerStatus)
    (st : AvailabilityCheckerStatus) : AvailabilityCheckerStatus :=
  if bodyPatternsFire env patterns then method st else st

/-- Python `all(status.http_status_code != int(x) for x in xs)`:
conversions are evaluated left to right and may raise; the generator
short-circuits on the first equal code. -/
def allNeqCode (code : Option Int) : List PyVal → Except PyErr Bool
  | [] => .ok true
  | x :: xs =>
    match PyVal.toPyInt x with
    | .error e => .error e
    | .ok n => if code = some n then .ok false else allNeqCode code xs

/-- Python `any(status.http_status_code == int(x) for x in xs)`. -/
def anyEqCode (code : Option Int) : List PyVal → Except PyErr Bool
  | [] => .ok false
  | x :: xs =>
    match PyVal.toPyInt x with
    | .error e => .error e
    | .ok n => if code = some n then .ok true else anyEqCode code xs

/-- The switch method Python binds from `rule["state_transition"]`:
bound to `switch_to_up` or `switch_to_down`, or left unbound (`none`,
raising `UnboundLocalError` at its use). -/
def transitionMethod (tv : PyVal) :
    Option (AvailabilityCheckerStatus → AvailabilityCheckerStatus) :=
  if isStrEq (some tv) "up" then some switch_to_up
  else if isStrEq (some tv) "down" then some switch_to_down
  else none

/-- The status-code clause of `switch_from_all_rule`: when
`required_status_code` is present and truthy and any converted member
equals the recorded HTTP status code, call the switch method (an
unbound method raises `UnboundLocalError`). -/
def all_rule_status_code_part (_env : RulesEnv) (tv : PyVal)
    (st : AvailabilityCheckerStatus) (rule : Rule) :
    Except PyErr AvailabilityCheckerStatus :=
  match Rule.find rule "required_status_code" with
  | some sc =>
    if PyVal.truthy sc then
      match PyVal.toPyIter sc with
      | .error e => .error e
      | .ok xs =>
        match anyEqCode st.http_status_code xs with
        | .error e => .error e
        | .ok fire =>
          if fire then
            match transitionMethod tv with
            | none => .error .unboundLocalError
            | some m => .ok (m st)
          else .ok st
    else .ok st
  | none => .ok st

/-- The headers clause of `switch_from_all_rule`: when
`required_headers_patterns` is present and truthy, run the header
match with the switch method. -/
def all_rule_headers_part (env : RulesEnv) (tv : PyVal)
    (st : AvailabilityCheckerStatus) (rule : Rule) :
    Except PyErr AvailabilityCheckerStatus :=
  match Rule.find rule "required_headers_patterns" with
  | some pats =>
    if PyVal.truthy pats then
      match transitionMethod tv with
      | none => .error .unboundLocalError
      | some m => .ok (do_on_header_match env pats m st)
    else .ok st
  | none => .ok st

/-- The body clause of `switch_from_all_rule`: when
`required_body_patterns` is present and truthy, run the body match
with the switch method. -/
def all_rule_body_part (env : RulesEnv) (tv : PyVal)
    (st : AvailabilityCheckerStatus) (rule : Rule) :
    Except PyErr AvailabilityCheckerStatus :=
  match Rule.find rule "required_body_patterns" with
  | some pats =>
    if PyVal.truthy pats then
      match transitionMethod tv with
      | none => .error .unboundLocalError
      | some m => .ok (do_on_body_match env pats m st)
    else .ok st
  | none => .ok st

/-- Embeds `ExternalRulesHandler.switch_from_status_code_rule`, translated from
the source: bail out on a missing `validation_type` or
`required_status_code` key or a foreign `validation_type`; otherwise
compare the recorded HTTP status code against each member of
`required_status_code` (via `int(x)`, which may raise) and, on any
match, apply the transition named by `rule["state_transition"]`
(a missing key there raises `KeyError`, as in Python). -/
def switch_from_status_code_rule (st : AvailabilityCheckerStatus)
    (rule : Rule) : Except PyErr AvailabilityCheckerStatus :=
  if !(Rule.hasKey rule "validation_type" && Rule.hasKey rule "required_status_code") then
    .ok st
  else if !(isStrEq (Rule.find rule "validation_type") "status_code") then
    .ok st
  else
    match PyVal.toPyIter ((Rule.find rule "required_status_code").getD .pynone) with
    | .error e => .error e
    | .ok xs =>
      match allNeqCode st.http_status_code xs with
      | .error e => .error e
      | .ok b =>
        if b then
          .ok st
        else
          match Rule.find rule "state_transition" with
          | none => .error .keyError
          | some tv =>
            if isStrEq (some tv) "up" then .ok (switch_to_up st)
            else if isStrEq (some tv) "down" then .ok (switch_to_down st)
            else .ok st

/-- Embeds `ExternalRulesHandler.switch_from_headers_rule`, translated from the
source: bail out on missing keys or a `validation_type` other than
`"headers"`; bind the switch method from `rule["state_transition"]`
(missing key raises `KeyError`; neither `"up"` nor `"down"` leaves the
method unbound, which raises `UnboundLocalError` at its use); when
`required_headers_patterns` is truthy, run the header match. -/
def switch_from_headers_rule (env : RulesEnv) (st : AvailabilityCheckerStatus)
    (rule : Rule) : Except PyErr AvailabilityCheckerStatus :=
  if !(Rule.hasKey rule "validation_type" && Rule.hasKey rule "required_headers_patterns") then
    .ok st
  else if !(isStrEq (Rule.find rule "validation_type") "headers") then
    .ok st
  else
    match Rule.find rule "state_transition" with
    | none => .error .keyError
    | some tv =>
      if PyVal.truthy ((Rule.find rule "required_headers_patterns").getD .pynone) then
        match transitionMethod tv with
        | none => .error .unboundLocalError
        | some m =>
          .ok (do_on_header_match env
            ((Rule.find rule "required_headers_patterns").getD .pynone) m st)
      else
        .ok st

/-- Embeds `ExternalRulesHandler.switch_from_body_rule`, translated from the
source, symmetric to the headers rule but over
`required_body_patterns` and the response body. -/
def switch_from_body_rule (env : RulesEnv) (st : AvailabilityCheckerStatus)
    (rule : Rule) : Except PyErr AvailabilityCheckerStatus :=
  if !(Rule.hasKey rule "validation_type" && Rule.hasKey rule "required_body_patterns") then
    .ok st
  else if !(isStrEq (Rule.find rule "validation_type") "body") then
    .ok st
  else
    match Rule.find rule "state_transition" with
    | none => .error .keyError
    | some tv =>
      if PyVal.truthy ((Rule.find rule "required_body_patterns").getD .pynone) then
        match transitionMethod tv with
        | none => .error .unboundLocalError
        | some m =>
          .ok (do_on_body_match env
            ((Rule.find rule "required_body_patterns").getD .pynone) m st)
      else
        .ok st

/-- Embeds `ExternalRulesHandler.switch_from_all_rule`, translated from the
source: for `validation_type = "all"`, the status-code, headers and body
payloads (those that are present and truthy) each independently fire the
same transition. -/
def switch_from_all_rule (env : RulesEnv) (st : AvailabilityCheckerStatus)
    (rule : Rule) : Except PyErr AvailabilityCheckerStatus :=
  if !(Rule.hasKey rule "validation_type") then
    .ok st
  else if !(isStrEq (Rule.find rule "validation_type") "all") then
    .ok st
  else
    match Rule.find rule "state_transition" with
    | none => .error .keyError
    | some tv =>
      match all_rule_status_code_part env tv st rule with
      | .error e => .error e
      | .ok st1 =>
        match all_rule_headers_part env tv st1 rule with
        | .error e => .error e
        | .ok st2 => all_rule_body_part env tv st2 rule

/-- The loop body of `ExternalRulesHandler.start`, translated from the
source: per rule, skip when one of `subject_pattern`, `validation_type`,
`state_transition` is absent, when the subject pattern does not match
the netloc (a non-string pattern raises `TypeError` in the regex
engine), or when the transition is unknown; stop (`break`) once
`status_after_extra_rules` is truthy; otherwise dispatch on
`validation_type` (`headers+body` dispatches the headers rule then the
body rule; an unknown type falls through and the loop continues). -/
def startLoop (env : RulesEnv) :
    AvailabilityCheckerStatus → List Rule → Except PyErr AvailabilityCheckerStatus
  | st, [] => .ok st
  | st, rule :: rest =>
    if !(Rule.hasKey rule "subject_pattern" && Rule.hasKey rule "validation_type"
        && Rule.hasKey rule "state_transition") then
      startLoop env st rest
    else
      match Rule.find rule "subject_pattern" with
      | some (.str p) =>
        if !(env.rmatch p st.netloc) then
          startLoop env st rest
        else if !(isStrEq (Rule.find rule "state_transition") "up"
            || isStrEq (Rule.find rule "state_transition") "down") then
          startLoop env st rest
        else if optTruthy st.status_after_extra_rules then
          .ok st
        else
          match
            (if isStrEq (Rule.find rule "validation_type") "status_code" then
              switch_from_status_code_rule st rule
            else if isStrEq (Rule.find rule "validation_type") "headers" then
              switch_from_headers_rule env st rule
            else if isStrEq (Rule.find rule "validation_type") "body" then
              switch_from_body_rule env st rule
            else if isStrEq (Rule.find rule "validation_type") "headers+body" then
              match switch_from_headers_rule env st rule with
              | .error e => .error e
              | .ok st1 => switch_from_body_rule env st1 rule
            else if isStrEq (Rule.find rule "validation_type") "all" then
              switch_from_all_rule env st rule
            else
              Except.ok st) with
          | .error e => .error e
          | .ok st' => startLoop env st' rest
      | some _ => .error .typeError
      | none => startLoop env st rest

/-!
Section: The URL availability pipeline

`URLAvailabilityChecker.query_status` sequences the probes.  The
outcomes the external probes would report are gathered into a
`ProbeEnv`; the feature flags supplied at construction into
`CheckerFlags`.  The pieces of `AvailabilityCheckerBase` the subclass
calls (`should_we_continue_test`, the base DNS probe, the syntax
probe) are not under the provided sources and are modelled from the
specification.
-/

/-- Outcomes of the external probes for one subject: whether the
reputation dataset flags it malicious, whether the injected DNS
resolver resolves it, the raw result of the HTTP status-code query
(`none` embeds a falsy result), and the configured `up` /
`potentially_up` status-code sets. -/
structure ProbeEnv where
  reputation_malicious : Bool
  dns_success : Bool
  http_lookup_result : Option Int
  up_codes : List Int
  potentially_up_codes : List Int

/-- Modelled from the spec: the sentinel "unknown status code" result of
the HTTP query tool (`STD_UNKNOWN_STATUS_CODE`, not under the provided
sources); it is treated as absence of signal. -/
def STD_UNKNOWN_STATUS_CODE : Int := 99999999

/-- The feature flags of the checker that `query_status` consults. -/
structure CheckerFlags where
  use_extra_rules : Bool
  use_reputation_lookup : Bool
  do_syntax_check_first : Bool

/-- Modelled from the spec:
`AvailabilityCheckerBase.should_we_continue_test` (base class not under
the provided sources).  Later stages still execute unless the pipeline
already has a committed verdict that differs from the post-syntax
marker: continue when no status is set or the status equals the
marker. -/
def should_we_continue_test (marker : Option String)
    (st : AvailabilityCheckerStatus) : Bool :=
  !(optTruthy st.status) || st.status == marker

/-- Modelled from the spec: the syntax probe
(`try_to_query_status_from_syntax_lookup` with `from_url_test=True`,
base class not under the provided sources).  It runs a syntax
classification: a subject that fails URL syntax validation yields the
non-UP/non-DOWN marker verdict `INVALID` with source `SYNTAX`; a
syntactically valid URL yields no verdict. -/
def try_to_query_status_from_syntax_lookup
    (st : AvailabilityCheckerStatus) : AvailabilityCheckerStatus :=
  if !st.url_syntax_ok then
    { st with status := some STATUS_INVALID, status_source := some "SYNTAX" }
  else
    st

/-- Embeds `URLAvailabilityChecker.try_to_query_status_from_reputation`,
translated from the source: a malicious reputation verdict sets status
`UP` with source `REPUTATION`. -/
def try_to_query_status_from_reputation (env : ProbeEnv)
    (st : AvailabilityCheckerStatus) : AvailabilityCheckerStatus :=
  if env.reputation_malicious then
    { st with status := some STATUS_UP, status_source := some "REPUTATION" }
  else
    st

/-- Modelled from the spec: the base DNS probe
(`AvailabilityCheckerBase.try_to_query_status_from_dns`, base class not
under the provided sources).  A successful lookup through the injected
resolver indicates "up": status `UP` with source `DNSLOOKUP`; a failed
lookup leaves the record unchanged. -/
def base_try_to_query_status_from_dns (env : ProbeEnv)
    (st : AvailabilityCheckerStatus) : AvailabilityCheckerStatus :=
  if env.dns_success then
    { st with status := some STATUS_UP, status_source := some "DNSLOOKUP" }
  else
    st

/-- Embeds `URLAvailabilityChecker.try_to_query_status_from_dns`, translated
from the source: run the base probe, then — DNS being a down-only
switch — reset an `UP` status (and its source) to unset, and in every
other case force status `DOWN` with source `DNSLOOKUP`. -/
def try_to_query_status_from_dns (env : ProbeEnv)
    (st : AvailabilityCheckerStatus) : AvailabilityCheckerStatus :=
  let st1 := base_try_to_query_status_from_dns env st
  if st1.status == some STATUS_UP then
    { st1 with status := none, status_source := none }
  else
    { st1 with status := some STATUS_DOWN, status_source := some "DNSLOOKUP" }

/-- Embeds `URLAvailabilityChecker.try_to_query_status_from_http_status_code`,
translated from the source (called with `from_domain_test=False`): a
truthy, non-sentinel lookup result is recorded as `http_status_code`
and, when it belongs to the configured `up` or `potentially_up` sets,
sets status `UP` with source `HTTP CODE`; otherwise `http_status_code`
is reset to `None`. -/
def try_to_query_status_from_http_status_code (env : ProbeEnv)
    (st : AvailabilityCheckerStatus) : AvailabilityCheckerStatus :=
  match env.http_lookup_result with
  | some code =>
    if code != 0 && code != STD_UNKNOWN_STATUS_CODE then
      let st1 := { st with http_status_code := some code }
      if env.up_codes.contains code || env.potentially_up_codes.contains code then
        { st1 with status := some STATUS_UP, status_source := some "HTTP CODE" }
      else
        st1
    else
      { st with http_status_code := none }
  | none => { st with http_status_code := none }

/-- The probe sequence of `URLAvailabilityChecker.query_status`
(everything before the fallback), translated from the source: optional
syntax probe (remembering a truthy verdict as the post-syntax marker),
optional reputation probe, DNS probe for URL-syntax subjects, HTTP
status-code probe — the last three each guarded by
`should_we_continue_test`.  Returns the state and the marker. -/
def query_status_probes (env : ProbeEnv) (flags : CheckerFlags)
    (st : AvailabilityCheckerStatus) :
    AvailabilityCheckerStatus × Option String :=
  let stm :=
    if !(optTruthy st.status) && flags.do_syntax_check_first then
      let st1 := try_to_query_status_from_syntax_lookup st
      (st1, if optTruthy st1.status then st1.status else none)
    else
      (st, none)
  let st := stm.1
  let marker := stm.2
  let st :=
    if flags.use_reputation_lookup && should_we_continue_test marker st then
      try_to_query_status_from_reputation env st
    else st
  let st :=
    if should_we_continue_test marker st && st.url_syntax_ok then
      try_to_query_status_from_dns env st
    else st
  let st :=
    if should_we_continue_test marker st then
      try_to_query_status_from_http_status_code env st
    else st
  (st, marker)

/-- The fallback stage of `query_status`, translated from the source: a
still-unset status is forced to `DOWN` with source `STDLOOKUP`. -/
def query_status_fallback
    (st : AvailabilityCheckerStatus) : AvailabilityCheckerStatus :=
  if !(optTruthy st.status) then
    { st with status := some STATUS_DOWN, status_source := some "STDLOOKUP" }
  else
    st

/-- Embeds `URLAvailabilityChecker.query_status`, translated from the source:
probe sequence, fallback, then — when `use_extra_rules` is set — the
extra-rules stage, which for the externally supplied rules runs
`ExternalRulesHandler.start` over the resolved status. -/
def query_status (env : ProbeEnv) (flags : CheckerFlags) (renv : RulesEnv)
    (rulesets : List Rule) (st : AvailabilityCheckerStatus) :
    Except PyErr AvailabilityCheckerStatus :=
  if flags.use_extra_rules then
    startLoop renv (query_status_fallback (query_status_probes env flags st).1) rulesets
  else
    .ok (query_status_fallback (query_status_probes env flags st).1)

/-!
Section: The Requester configuration layer

`Requester` owns validated configuration fields; each property setter
is wrapped by `recreate_session`, which replaces the session with a
freshly built one after the setter body returns normally.  Sessions are
modelled with an identity counter standing for Python object identity;
a session records the configuration its adapters were built from.
Setters return the (possibly unchanged) state together with the raised
exception, if any — Python mutates in place, so the state survives an
exception.
-/

/-- A transport session as far as the embedded code configures one: an
object identity, the session-level settings and the values the two
mounted adapters were constructed with. -/
structure Session where
  sid : Nat
  verify : Bool
  session_max_redirects : Int
  adapter_timeout : Rat
  adapter_max_retries : Int
  adapter_proxy_pattern : List (String × PyVal)

/-- The `Requester` state: the five configuration fields (with the
class-attribute defaults of the source), the current session, and the
identity counter for freshly created sessions. -/
structure Requester where
  rq_timeout : Rat := 5
  rq_max_retries : Int := 3
  rq_verify_certificate : Bool := true
  rq_max_redirects : Int := 60
  rq_proxy_pattern : List (String × PyVal) := []
  session : Option Session := none
  session_counter : Nat := 0

/-- Embeds `Requester.STD_VERIFY_CERTIFICATE`. -/
def STD_VERIFY_CERTIFICATE : Bool := false

/-- Embeds `Requester.STD_TIMEOUT`. -/
def STD_TIMEOUT : Rat := 3

/-- Embeds `Requester.STD_MAX_RETRIES`. -/
def STD_MAX_RETRIES : Int := 3

/-- Python `isinstance(v, int)` (bools are ints in Python). -/
def isInstInt : PyVal → Bool
  | .int _ => true
  | .bool _ => true
  | _ => false

/-- Python `isinstance(v, (int, float))`. -/
def isInstNum : PyVal → Bool
  | .int _ => true
  | .bool _ => true
  | .float _ => true
  | _ => false

/-- Python `isinstance(v, bool)`. -/
def isInstBool : PyVal → Bool
  | .bool _ => true
  | _ => false

/-- Python `isinstance(v, dict)`. -/
def isInstDict : PyVal → Bool
  | .dict _ => true
  | _ => false

/-- The numeric value of an int/bool/float `PyVal` as a rational
(Python `float(v)` for the values the setters accept). -/
def pyNumVal : PyVal → Rat
  | .int n => (n : Rat)
  | .bool b => if b then 1 else 0
  | .float q => q
  | _ => 0

/-- The integer value of an int/bool `PyVal`. -/
def pyIntVal : PyVal → Int
  | .int n => n
  | .bool b => if b then 1 else 0
  | _ => 0

/-- Embeds `Requester.get_session`, translated from the source: build a fresh
session whose settings and mounted adapters are read from the current
configuration fields.  The fresh object identity is the current value
of the identity counter, which is bumped. -/
def get_session (r : Requester) : Session × Requester :=
  (⟨r.session_counter, r.rq_verify_certificate, r.rq_max_redirects,
    r.rq_timeout, r.rq_max_retries, r.rq_proxy_pattern⟩,
   { r with session_counter := r.session_counter + 1 })

/-- The `recreate_session` decorator, translated from the source: after
the wrapped setter returns normally, and when a session object is
present, replace it with a freshly constructed one; a raised exception
propagates without touching the session. -/
def recreate_after (res : Requester × Option PyErr) : Requester × Option PyErr :=
  match res.2 with
  | some _ => res
  | none =>
    match res.1.session with
    | some _ =>
      let sr := get_session res.1
      ({ sr.2 with session := some sr.1 }, none)
    | none => res

/-- The body of the `timeout` setter, translated from the source:
`TypeError` for a non-numeric value, `ValueError` below `0`, otherwise
store `float(value)`.  Validation precedes assignment, so a rejected
value leaves the state unchanged. -/
def timeout_setter_body (r : Requester) (v : PyVal) : Requester × Option PyErr :=
  if !(isInstNum v) then (r, some .typeError)
  else if pyNumVal v < 0 then (r, some .valueError)
  else ({ r with rq_timeout := pyNumVal v }, none)

/-- The `timeout` property setter (body plus session recreation). -/
def timeout_set (r : Requester) (v : PyVal) : Requester × Option PyErr :=
  recreate_after (timeout_setter_body r v)

/-- The body of the `max_retries` setter, translated from the source:
`TypeError` for a non-int, `ValueError` below `0`. -/
def max_retries_setter_body (r : Requester) (v : PyVal) : Requester × Option PyErr :=
  if !(isInstInt v) then (r, some .typeError)
  else if pyIntVal v < 0 then (r, some .valueError)
  else ({ r with rq_max_retries := pyIntVal v }, none)

/-- The `max_retries` property setter (body plus session recreation). -/
def max_retries_set (r : Requester) (v : PyVal) : Requester × Option PyErr :=
  recreate_after (max_retries_setter_body r v)

/-- The body of the `max_redirects` setter, translated from the source:
`TypeError` for a non-int, `ValueError` below `1`. -/
def max_redirects_setter_body (r : Requester) (v : PyVal) : Requester × Option PyErr :=
  if !(isInstInt v) then (r, some .typeError)
  else if pyIntVal v < 1 then (r, some .valueError)
  else ({ r with rq_max_redirects := pyIntVal v }, none)

/-- The `max_redirects` property setter (body plus session recreation). -/
def max_redirects_set (r : Requester) (v : PyVal) : Requester × Option PyErr :=
  recreate_after (max_redirects_setter_body r v)

/-- The body of the `verify_certificate` setter, translated from the
source: `TypeError` for a non-bool. -/
def verify_certificate_setter_body (r : Requester) (v : PyVal) :
    Requester × Option PyErr :=
  match v with
  | .bool b => ({ r with rq_verify_certificate := b }, none)
  | _ => (r, some .typeError)

/-- The `verify_certificate` property setter (body plus session
recreation). -/
def verify_certificate_set (r : Requester) (v : PyVal) : Requester × Option PyErr :=
  recreate_after (verify_certificate_setter_body r v)

/-- The body of the `proxy_pattern` setter, translated from the source:
`TypeError` for a non-dict. -/
def proxy_pattern_setter_body (r : Requester) (v : PyVal) :
    Requester × Option PyErr :=
  match v with
  | .dict d => ({ r with rq_proxy_pattern := d }, none)
  | _ => (r, some .typeError)

/-- The `proxy_pattern` property setter (body plus session recreation). -/
def proxy_pattern_set (r : Requester) (v : PyVal) : Requester × Option PyErr :=
  recreate_after (proxy_pattern_setter_body r v)

/-- One attribute read from the ambient configuration object: either a
value or a raised exception (a plain `Box` raises on a missing key; a
`default_box` yields an empty `Box`, embedded as an empty dict). -/
inductive ConfigRead where
  | ok (v : PyVal)
  | raise

/-- Embeds `Requester.guess_and_set_max_retries`, translated from the source:
inside a bare `try`, use the configured value when it is an int, else
the hard-coded default; any exception (the attribute read raising, or
the setter rejecting a negative configured int) falls back to the
default. -/
def guess_and_set_max_retries (c : ConfigRead) (r : Requester) : Requester :=
  match c with
  | .raise => (max_retries_set r (.int STD_MAX_RETRIES)).1
  | .ok v =>
    if isInstInt v then
      let attempt := max_retries_set r v
      match attempt.2 with
      | none => attempt.1
      | some _ => (max_retries_set attempt.1 (.int STD_MAX_RETRIES)).1
    else
      (max_retries_set r (.int STD_MAX_RETRIES)).1

/-- Embeds `Requester.guess_and_set_verify_certificate`, translated from the
source: use the configured value when it is a bool, else the hard-coded
default `STD_VERIFY_CERTIFICATE`; but when the attribute read raises,
the `except` branch executes `set_max_retries(STD_MAX_RETRIES)` — it
does not touch `verify_certificate` at all. -/
def guess_and_set_verify_certificate (c : ConfigRead) (r : Requester) : Requester :=
  match c with
  | .raise => (max_retries_set r (.int STD_MAX_RETRIES)).1
  | .ok v =>
    if isInstBool v then
      (verify_certificate_set r v).1
    else
      (verify_certificate_set r (.bool STD_VERIFY_CERTIFICATE)).1

/-- Embeds `Requester.guess_and_set_timeout`, translated from the source:
use the configured value when numeric, else the default; any exception
falls back to the default. -/
def guess_and_set_timeout (c : ConfigRead) (r : Requester) : Requester :=
  match c with
  | .raise => (timeout_set r (.float STD_TIMEOUT)).1
  | .ok v =>
    if isInstNum v then
      let attempt := timeout_set r v
      match attempt.2 with
      | none => attempt.1
      | some _ => (timeout_set attempt.1 (.float STD_TIMEOUT)).1
    else
      (timeout_set r (.float STD_TIMEOUT)).1

/-- Embeds `Requester.guess_and_set_proxy_pattern`, translated from the source:
use the configured value when truthy, else the empty pattern; any
exception (including the setter rejecting a truthy non-dict) falls back
to the empty pattern. -/
def guess_and_set_proxy_pattern (c : ConfigRead) (r : Requester) : Requester :=
  match c with
  | .raise => (proxy_pattern_set r (.dict [])).1
  | .ok v =>
    if PyVal.truthy v then
      let attempt := proxy_pattern_set r v
      match attempt.2 with
      | none => attempt.1
      | some _ => (proxy_pattern_set attempt.1 (.dict [])).1
    else
      (proxy_pattern_set r (.dict [])).1

/-- Embeds `Requester.__init__` for a construction without explicit arguments,
translated from the source: starting from the class-attribute defaults,
guess max retries, certificate verification, timeout and proxy pattern
from the configuration reads, then install the first session. -/
def requester_init (cRetries cVerify cTimeout cProxy : ConfigRead) : Requester :=
  let r : Requester := {}
  let r := guess_and_set_max_retries cRetries r
  let r := guess_and_set_verify_certificate cVerify r
  let r := guess_and_set_timeout cTimeout r
  let r := guess_and_set_proxy_pattern cProxy r
  let sr := get_session r
  { sr.2 with session := some sr.1 }

/-- Sessions are created with identities below the counter: the
invariant every reachable `Requester` satisfies. -/
def sessionWf (r : Requester) : Prop :=
  ∀ s, r.session = some s → s.sid < r.session_counter

/-!
Section: Concrete scenario material

Closed instances used by counterexamples and witnesses: a concrete
regex engine restricted to the behaviours the scenarios exercise, a
concrete response, and concrete statuses and rules.
-/

/-- Whether the first character list is a prefix of the second. -/
def charsStartWith : List Char → List Char → Bool
  | [], _ => true
  | _ :: _, [] => false
  | c :: cs, d :: ds => (c == d) && charsStartWith cs ds

/-- Whether the first character list occurs inside the second. -/
def charsContain : List Char → List Char → Bool
  | p, [] => charsStartWith p []
  | p, d :: ds => charsStartWith p (d :: ds) || charsContain p ds

/-- A concrete search predicate: literal substring containment.  It
agrees with `re.search` on the literal, metacharacter-free patterns the
concrete scenarios use. -/
def literalSearch (p s : String) : Bool := charsContain p.data s.data

/-- A concrete match predicate: the regex engine restricted to the
pattern `.*`, which matches every subject at the start. -/
def dotStarMatch (p _s : String) : Bool := p == ".*"

/-- A concrete observed response: an `nginx` server header and a body
containing the word `error`. -/
def sampleResponse : HttpResponse :=
  ⟨[("Server", "nginx/1.2.3")], "an error page"⟩

/-- The concrete rule-engine environment built from the above. -/
def sampleEnv : RulesEnv := ⟨dotStarMatch, literalSearch, sampleResponse⟩

/-- A concrete pipeline-resolved status carrying HTTP code 404. -/
def sampleStatus404 : AvailabilityCheckerStatus :=
  { subject := "https://example.org/x"
    netloc := "example.org"
    status := some STATUS_UP
    status_source := some "HTTP CODE"
    http_status_code := some 404
    status_after_extra_rules := none
    url_syntax_ok := true }

/-- The same status carrying HTTP code 200. -/
def sampleStatus200 : AvailabilityCheckerStatus :=
  { sampleStatus404 with http_status_code := some 200 }

/-- A fresh, unresolved status as `subject_propagator` builds it. -/
def freshStatus : AvailabilityCheckerStatus :=
  { subject := "https://example.org/x"
    netloc := "example.org"
    status := none
    status_source := none
    http_status_code := none
    status_after_extra_rules := none
    url_syntax_ok := true }

/-- A fresh status for a subject that fails URL syntax validation (the
DNS probe is skipped for it). -/
def freshStatusNoUrl : AvailabilityCheckerStatus :=
  { freshStatus with url_syntax_ok := false }

/-- A probe environment in which nothing reports a signal. -/
def quietProbes : ProbeEnv :=
  { reputation_malicious := false
    dns_success := false
    http_lookup_result := none
    up_codes := []
    potentially_up_codes := [] }

/-- A probe environment with a failing DNS lookup but an HTTP probe
that would report 200, configured as an `up` code. -/
def dnsFailProbes : ProbeEnv :=
  { reputation_malicious := false
    dns_success := false
    http_lookup_result := some 200
    up_codes := [200]
    potentially_up_codes := [] }

/-- A well-formed `headers+body` rule whose header and body payloads
both fire against `sampleResponse`. -/
def ruleHeadersBody : Rule :=
  [("subject_pattern", .str ".*"), ("validation_type", .str "headers+body"),
   ("state_transition", .str "down"),
   ("required_headers_patterns", .dict [("Server", .list [.str "nginx"])]),
   ("required_body_patterns", .list [.str "error"])]

/-- A `status_code` rule whose `required_status_code` payload holds a
non-numeric string: `int("abc")` raises `ValueError`. -/
def ruleBadPayload : Rule :=
  [("subject_pattern", .str ".*"), ("validation_type", .str "status_code"),
   ("state_transition", .str "down"),
   ("required_status_code", .list [.str "abc"])]

/-- A well-formed `status_code` rule. -/
def mkStatusCodeRule (pat tr : String) (codes : List Int) : Rule :=
  [("subject_pattern", .str pat), ("validation_type", .str "status_code"),
   ("state_transition", .str tr),
   ("required_status_code", .list (codes.map PyVal.int))]

/-- A `Requester` constructed without explicit arguments against an
absent configuration (every read yields an empty mapping). -/
def sampleRequester : Requester :=
  requester_init (.ok (.dict [])) (.ok (.dict [])) (.ok (.dict [])) (.ok (.dict []))

/-- The session `sampleRequester` is constructed with. -/
def sampleSession : Session :=
  { sid := 0
    verify := false
    session_max_redirects := 60
    adapter_timeout := 3
    adapter_max_retries := 3
    adapter_proxy_pattern := [] }

/-- A rule whose `subject_pattern`, when all three required keys are
present, is a string — the only rules on which the regex engine cannot
raise while the loop filters them. -/
def patternSafe (r : Rule) : Prop :=
  Rule.hasKey r "subject_pattern" = false ∨
  Rule.hasKey r "validation_type" = false ∨
  Rule.hasKey r "state_transition" = false ∨
  ∃ p, Rule.find r "subject_pattern" = some (.str p)

/-- A rule malformed in one of the three senses the claim lists —
missing required keys, unknown `validation_type`, or unknown
`state_transition` — with its `subject_pattern` a string whenever the
three keys are present. -/
def claimMalformed (r : Rule) : Prop :=
  (Rule.hasKey r "subject_pattern" = false ∨
   Rule.hasKey r "validation_type" = false ∨
   Rule.hasKey r "state_transition" = false) ∨
  ((∃ p, Rule.find r "subject_pattern" = some (.str p)) ∧
   ((isStrEq (Rule.find r "state_transition") "up" = false ∧
     isStrEq (Rule.find r "state_transition") "down" = false) ∨
    (isStrEq (Rule.find r "validation_type") "status_code" = false ∧
     isStrEq (Rule.find r "validation_type") "headers" = false ∧
     isStrEq (Rule.find r "validation_type") "body" = false ∧
     isStrEq (Rule.find r "validation_type") "headers+body" = false ∧
     isStrEq (Rule.find r "validation_type") "all" = false)))

/-!
Section: Shared lemmas
-/

theorem optTruthy_isSome {o : Option String} (h : optTruthy o = true) :
    o.isSome = true := by
  cases o <;> simp_all [optTruthy]

theorem startLoop_terminal (env : RulesEnv) (st : AvailabilityCheckerStatus)
    (rules : List Rule)
    (hterm : optTruthy st.status_after_extra_rules = true)
    (hwf : ∀ r ∈ rules, patternSafe r) :
    startLoop env st rules = .ok st := by
  induction rules with
  | nil => rfl
  | cons r rest ih =>
    have hr : patternSafe r := hwf r (List.mem_cons_self r rest)
    have ihr := ih fun x hx => hwf x (List.mem_cons_of_mem r hx)
    unfold startLoop
    cases hk : (Rule.hasKey r "subject_pattern" && Rule.hasKey r "validation_type"
        && Rule.hasKey r "state_transition") with
    | false => simpa [hk] using ihr
    | true =>
      simp only [Bool.and_eq_true] at hk
      obtain ⟨p, hp⟩ : ∃ p, Rule.find r "subject_pattern" = some (.str p) := by
        rcases hr with h | h | h | hp
        · rw [hk.1.1] at h; cases h
        · rw [hk.1.2] at h; cases h
        · rw [hk.2] at h; cases h
        · exact hp
      simp only [hk.1.1, hk.1.2, hk.2, Bool.and_self, Bool.not_true,
        Bool.false_eq_true, if_false, hp]
      cases hm : env.rmatch p st.netloc with
      | false => simpa [hm] using ihr
      | true =>
        cases htr : (isStrEq (Rule.find r "state_transition") "up"
            || isStrEq (Rule.find r "state_transition") "down") with
        | false => simpa [hm, htr] using ihr
        | true => simp [hm, htr, hterm]

theorem transitionMethod_cases {tv : PyVal}
    {m : AvailabilityCheckerStatus → AvailabilityCheckerStatus}
    (h : transitionMethod tv = some m) :
    m = switch_to_up ∨ m = switch_to_down := by
  unfold transitionMethod at h
  split at h
  · cases h; exact Or.inl rfl
  split at h
  · cases h; exact Or.inr rfl
  · cases h

theorem method_isSome {st : AvailabilityCheckerStatus}
    {m : AvailabilityCheckerStatus → AvailabilityCheckerStatus}
    (hm : m = switch_to_up ∨ m = switch_to_down) :
    (m st).status.isSome = true := by
  rcases hm with hm | hm <;> subst hm <;> simp [switch_to_up, switch_to_down]

theorem do_on_header_match_isSome {env : RulesEnv} {pats : PyVal}
    {st : AvailabilityCheckerStatus}
    {m : AvailabilityCheckerStatus → AvailabilityCheckerStatus}
    (hm : m = switch_to_up ∨ m = switch_to_down)
    (hs : st.status.isSome = true) :
    (do_on_header_match env pats m st).status.isSome = true := by
  unfold do_on_header_match
  split
  · exact method_isSome hm
  · exact hs

theorem do_on_body_match_isSome {env : RulesEnv} {pats : PyVal}
    {st : AvailabilityCheckerStatus}
    {m : AvailabilityCheckerStatus → AvailabilityCheckerStatus}
    (hm : m = switch_to_up ∨ m = switch_to_down)
    (hs : st.status.isSome = true) :
    (do_on_body_match env pats m st).status.isSome = true := by
  unfold do_on_body_match
  split
  · exact method_isSome hm
  · exact hs

theorem switch_status_code_isSome {st st' : AvailabilityCheckerStatus} {rule : Rule}
    (h : switch_from_status_code_rule st rule = .ok st')
    (hs : st.status.isSome = true) : st'.status.isSome = true := by
  unfold switch_from_status_code_rule at h
  split at h
  · cases h; exact hs
  split at h
  · cases h; exact hs
  split at h
  · cases h
  split at h
  · cases h
  split at h
  · cases h; exact hs
  split at h
  · cases h
  split at h
  · cases h; simp [switch_to_up]
  split at h
  · cases h; simp [switch_to_down]
  · cases h; exact hs

theorem switch_headers_isSome {env : RulesEnv} {st st' : AvailabilityCheckerStatus}
    {rule : Rule} (h : switch_from_headers_rule env st rule = .ok st')
    (hs : st.status.isSome = true) : st'.status.isSome = true := by
  unfold switch_from_headers_rule at h
  split at h
  · cases h; exact hs
  split at h
  · cases h; exact hs
  split at h
  · cases h
  split at h
  · split at h
    · cases h
    · rename_i m hm
      cases h
      exact do_on_header_match_isSome (transitionMethod_cases hm) hs
  · cases h; exact hs

theorem switch_body_isSome {env : RulesEnv} {st st' : AvailabilityCheckerStatus}
    {rule : Rule} (h : switch_from_body_rule env st rule = .ok st')
    (hs : st.status.isSome = true) : st'.status.isSome = true := by
  unfold switch_from_body_rule at h
  split at h
  · cases h; exact hs
  split at h
  · cases h; exact hs
  split at h
  · cases h
  split at h
  · split at h
    · cases h
    · rename_i m hm
      cases h
      exact do_on_body_match_isSome (transitionMethod_cases hm) hs
  · cases h; exact hs

theorem switch_all_isSome {env : RulesEnv} {st st' : AvailabilityCheckerStatus}
    {rule : Rule} (h : switch_from_all_rule env st rule = .ok st')
    (hs : st.status.isSome = true) : st'.status.isSome = true := by
  unfold switch_from_all_rule at h
  split at h
  · cases h; exact hs
  split at h
  · cases h; exact hs
  split at h
  · cases h
  rename_i tv htv
  have part1 : ∀ {s s' : AvailabilityCheckerStatus},
      all_rule_status_code_part env tv s rule = .ok s' →
      s.status.isSome = true → s'.status.isSome = true := by
    intro s s' h1 hs1
    unfold all_rule_status_code_part at h1
    split at h1
    · split at h1
      · split at h1
        · cases h1
        · split at h1
          · cases h1
          · split at h1
            · split at h1
              · cases h1
              · rename_i m hm
                cases h1
                exact method_isSome (transitionMethod_cases hm)
            · cases h1; exact hs1
      · cases h1; exact hs1
    · cases h1; exact hs1
  have part2 : ∀ {s s' : AvailabilityCheckerStatus},
      all_rule_headers_part env tv s rule = .ok s' →
      s.status.isSome = true → s'.status.isSome = true := by
    intro s s' h1 hs1
    unfold all_rule_headers_part at h1
    split at h1
    · split at h1
      · split at h1
        · cases h1
        · rename_i m hm
          cases h1
          exact do_on_header_match_isSome (transitionMethod_cases hm) hs1
      · cases h1; exact hs1
    · cases h1; exact hs1
  have part3 : ∀ {s s' : AvailabilityCheckerStatus},
      all_rule_body_part env tv s rule = .ok s' →
      s.status.isSome = true → s'.status.isSome = true := by
    intro s s' h1 hs1
    unfold all_rule_body_part at h1
    split at h1
    · split at h1
      · split at h1
        · cases h1
        · rename_i m hm
          cases h1
          exact do_on_body_match_isSome (transitionMethod_cases hm) hs1
      · cases h1; exact hs1
    · cases h1; exact hs1
  split at h
  · cases h
  rename_i st1 h1
  split at h
  · cases h
  rename_i st2 h2
  exact part3 h (part2 h2 (part1 h1 hs))

theorem startLoop_isSome {env : RulesEnv} {rules : List Rule}
    {st st' : AvailabilityCheckerStatus}
    (h : startLoop env st rules = .ok st')
    (hs : st.status.isSome = true) : st'.status.isSome = true := by
  induction rules generalizing st with
  | nil => cases h; exact hs
  | cons r rest ih =>
    unfold startLoop at h
    split at h
    · exact ih h hs
    split at h
    · split at h
      · exact ih h hs
      split at h
      · exact ih h hs
      split at h
      · cases h; exact hs
      split at h
      · cases h
      rename_i stm hm
      split at hm
      · exact ih h (switch_status_code_isSome hm hs)
      split at hm
      · exact ih h (switch_headers_isSome hm hs)
      split at hm
      · exact ih h (switch_body_isSome hm hs)
      split at hm
      · split at hm
        · cases hm
        rename_i st1 h1
        exact ih h (switch_body_isSome hm (switch_headers_isSome h1 hs))
      split at hm
      · exact ih h (switch_all_isSome hm hs)
      · cases hm; exact ih h hs
    · cases h
    · exact ih h hs

theorem allNeqCode_map_int (code : Option Int) (codes : List Int) :
    allNeqCode code (codes.map PyVal.int)
      = .ok (!codes.any fun c => code == some c) := by
  induction codes with
  | nil => rfl
  | cons c cs ih =>
    simp only [List.map_cons, allNeqCode, PyVal.toPyInt, List.any_cons]
    by_cases h : code = some c
    · simp [h]
    · have hb : (code == some c) = false := beq_eq_false_iff_ne.mpr h
      simp [h, hb, ih]

theorem switch_from_status_code_rule_mk (st : AvailabilityCheckerStatus)
    (pat tr : String) (codes : List Int) :
    switch_from_status_code_rule st (mkStatusCodeRule pat tr codes)
      = .ok (if codes.any (fun c => st.http_status_code == some c) then
               (if tr == "up" then switch_to_up st
                else if tr == "down" then switch_to_down st
                else st)
             else st) := by
  cases hany : codes.any (fun c => st.http_status_code == some c) with
  | false =>
    simp [switch_from_status_code_rule, mkStatusCodeRule, Rule.hasKey,
      Rule.find, List.lookup, isStrEq, PyVal.toPyIter, allNeqCode_map_int, hany]
  | true =>
    by_cases hup : tr = "up"
    · subst hup
      simp [switch_from_status_code_rule, mkStatusCodeRule, Rule.hasKey,
        Rule.find, List.lookup, isStrEq, PyVal.toPyIter, allNeqCode_map_int, hany]
    · by_cases hdown : tr = "down"
      · subst hdown
        simp [switch_from_status_code_rule, mkStatusCodeRule, Rule.hasKey,
          Rule.find, List.lookup, isStrEq, PyVal.toPyIter, allNeqCode_map_int,
          hany]
      · have h1 : (tr == "up") = false := beq_eq_false_iff_ne.mpr hup
        have h2 : (tr == "down") = false := beq_eq_false_iff_ne.mpr hdown
        simp [switch_from_status_code_rule, mkStatusCodeRule, Rule.hasKey,
          Rule.find, List.lookup, isStrEq, PyVal.toPyIter, allNeqCode_map_int,
          hany, h1, h2]

theorem startLoop_cons_status_code (env : RulesEnv)
    (st st' : AvailabilityCheckerStatus) (pat tr : String) (codes : List Int)
    (rest : List Rule)
    (hm : env.rmatch pat st.netloc = true)
    (htr : tr = "up" ∨ tr = "down")
    (hflag : optTruthy st.status_after_extra_rules = false)
    (hdisp : switch_from_status_code_rule st (mkStatusCodeRule pat tr codes)
      = .ok st') :
    startLoop env st (mkStatusCodeRule pat tr codes :: rest)
      = startLoop env st' rest := by
  unfold mkStatusCodeRule at hdisp
  rcases htr with h | h <;> subst h <;>
    simp [startLoop, mkStatusCodeRule, Rule.hasKey, Rule.find, List.lookup,
      isStrEq, hm, hflag, hdisp]

/-!
Section: Claim theorems: the external rule engine
-/

/-- C3: the spec says a `headers+body` rule evaluates the headers check
and the body check independently and either firing applies the
configured transition.  The code instead dispatches
`switch_from_headers_rule` and `switch_from_body_rule`, each of which
bails out because the rule's `validation_type` is `headers+body` rather
than its own: on a well-formed `headers+body` rule whose header and
body payloads both fire against the observed response, `start` leaves
the status unchanged and applies no transition at all. -/
theorem c3_headers_plus_body_rule_is_noop :
    headerPatternsFire sampleEnv
      (PyVal.dict [("Server", PyVal.list [PyVal.str "nginx"])]) = true ∧
    bodyPatternsFire sampleEnv (PyVal.list [PyVal.str "error"]) = true ∧
    switch_from_headers_rule sampleEnv sampleStatus404 ruleHeadersBody
      = .ok sampleStatus404 ∧
    switch_from_body_rule sampleEnv sampleStatus404 ruleHeadersBody
      = .ok sampleStatus404 ∧
    startLoop sampleEnv sampleStatus404 [ruleHeadersBody] = .ok sampleStatus404 ∧
    sampleStatus404.status_after_extra_rules = none :=
  ⟨rfl, rfl, rfl, rfl, rfl, rfl⟩

/-- C4 counterexample: `start` does not complete without raising on
every list of rule dictionaries — a `status_code` rule whose
`required_status_code` holds the non-numeric string `"abc"` makes
`int("abc")` raise `ValueError`, which propagates out of `start`. -/
theorem c4_counterexample :
    startLoop sampleEnv sampleStatus404 [ruleBadPayload]
      = .error PyErr.valueError :=
  rfl

/-- C4 (amended): a rule malformed in one of the three senses the claim
lists — missing required keys, unknown `validation_type`, or unknown
`state_transition` — is skipped and leaves the status unchanged, with
no exception (provided its `subject_pattern` is a string, which the
regex engine requires); malformed payload contents can still raise. -/
theorem c4_malformed_rules_are_skipped (env : RulesEnv)
    (st : AvailabilityCheckerStatus) (rules : List Rule)
    (h : ∀ r ∈ rules, claimMalformed r) :
    startLoop env st rules = .ok st := by
  induction rules with
  | nil => rfl
  | cons r rest ih =>
    have hr := h r (List.mem_cons_self r rest)
    have ihr := ih fun x hx => h x (List.mem_cons_of_mem r hx)
    unfold startLoop
    cases hk : (Rule.hasKey r "subject_pattern" && Rule.hasKey r "validation_type"
        && Rule.hasKey r "state_transition") with
    | false => simpa [hk] using ihr
    | true =>
      simp only [Bool.and_eq_true] at hk
      rcases hr with hmiss | ⟨⟨p, hp⟩, hbad⟩
      · rcases hmiss with h1 | h1 | h1
        · rw [hk.1.1] at h1; cases h1
        · rw [hk.1.2] at h1; cases h1
        · rw [hk.2] at h1; cases h1
      · simp only [hk.1.1, hk.1.2, hk.2, Bool.and_self, Bool.not_true,
          Bool.false_eq_true, if_false, hp]
        cases hm : env.rmatch p st.netloc with
        | false => simpa [hm] using ihr
        | true =>
          rcases hbad with ⟨hup, hdown⟩ | ⟨h1, h2, h3, h4, h5⟩
          · simpa [hm, hup, hdown] using ihr
          · cases htr : (isStrEq (Rule.find r "state_transition") "up"
                || isStrEq (Rule.find r "state_transition") "down") with
            | false => simpa [hm, htr] using ihr
            | true =>
              cases hterm : optTruthy st.status_after_extra_rules with
              | true => simp [hm, htr, hterm]
              | false => simpa [hm, htr, hterm, h1, h2, h3, h4, h5] using ihr

/-- C4 witness: a rule missing its `subject_pattern` key is skipped. -/
theorem c4_malformed_rules_are_skipped_witness :
    startLoop sampleEnv sampleStatus404 [[("validation_type", PyVal.str "x")]]
      = .ok sampleStatus404 :=
  c4_malformed_rules_are_skipped sampleEnv sampleStatus404 _
    (by
      intro r hr
      rw [List.mem_singleton] at hr
      subst hr
      exact Or.inl (Or.inl rfl))

/-- C5: first match wins — on a ruleset whose first two rules both
match the subject and carry contradictory transitions, only the first
takes effect, and once the terminal `status_after_extra_rules` flag is
set no later rule is dispatched or changes the status. -/
theorem c5_first_matching_rule_wins (env : RulesEnv)
    (st : AvailabilityCheckerStatus) (c : Int) (pat : String)
    (rest : List Rule)
    (hcode : st.http_status_code = some c)
    (hflag : st.status_after_extra_rules = none)
    (hmatch : env.rmatch pat st.netloc = true)
    (hrest : ∀ r ∈ rest, patternSafe r) :
    startLoop env st
        (mkStatusCodeRule pat "down" [c] :: mkStatusCodeRule pat "up" [c] :: rest)
      = .ok (switch_to_down st) ∧
    (switch_to_down st).status = some STATUS_DOWN ∧
    (switch_to_down st).status_source = some "EXTRA_RULES" ∧
    (∀ env2 st2 rules2, optTruthy st2.status_after_extra_rules = true →
      (∀ r ∈ rules2, patternSafe r) → startLoop env2 st2 rules2 = .ok st2) := by
  refine ⟨?_, rfl, rfl, fun env2 st2 rules2 hterm hwf =>
    startLoop_terminal env2 st2 rules2 hterm hwf⟩
  have hdisp : switch_from_status_code_rule st (mkStatusCodeRule pat "down" [c])
      = .ok (switch_to_down st) := by
    rw [switch_from_status_code_rule_mk]
    simp [hcode]
  rw [startLoop_cons_status_code env st (switch_to_down st) pat "down" [c] _
    hmatch (Or.inr rfl) (by simp [hflag, optTruthy]) hdisp]
  apply startLoop_terminal
  · simp [switch_to_down, optTruthy, STATUS_DOWN]
  · intro r hr
    rcases List.mem_cons.mp hr with h | h
    · subst h
      exact Or.inr (Or.inr (Or.inr ⟨pat, rfl⟩))
    · exact hrest r h

/-- C5 witness: the concrete contradictory pair over `sampleStatus404`. -/
theorem c5_first_matching_rule_wins_witness :
    startLoop sampleEnv sampleStatus404
        (mkStatusCodeRule ".*" "down" [404] :: mkStatusCodeRule ".*" "up" [404] :: [])
      = .ok (switch_to_down sampleStatus404) ∧
    (switch_to_down sampleStatus404).status = some STATUS_DOWN :=
  ⟨(c5_first_matching_rule_wins sampleEnv sampleStatus404 404 ".*" [] rfl rfl rfl
      (fun r hr => absurd hr (List.not_mem_nil r))).1,
   (c5_first_matching_rule_wins sampleEnv sampleStatus404 404 ".*" [] rfl rfl rfl
      (fun r hr => absurd hr (List.not_mem_nil r))).2.1⟩

/-- C6: a `status_code` rule compares the recorded HTTP status code
against each member of `required_status_code` by exact integer equality
with OR semantics and applies the configured transition on any match;
concretely, the 404 rule fires terminal `DOWN`/`EXTRA_RULES` on a
status carrying code 404 and leaves a status carrying 200 unmodified. -/
theorem c6_status_code_rule_or_semantics (env : RulesEnv)
    (st : AvailabilityCheckerStatus) (pat tr : String) (codes : List Int)
    (hflag : st.status_after_extra_rules = none)
    (hmatch : env.rmatch pat st.netloc = true)
    (htr : tr = "up" ∨ tr = "down") :
    switch_from_status_code_rule st (mkStatusCodeRule pat tr codes)
      = .ok (if codes.any (fun c => st.http_status_code == some c) then
               (if tr == "up" then switch_to_up st else switch_to_down st)
             else st) ∧
    (st.http_status_code = some 404 →
      startLoop env st [mkStatusCodeRule pat "down" [404]]
        = .ok (switch_to_down st) ∧
      (switch_to_down st).status = some STATUS_DOWN ∧
      (switch_to_down st).status_source = some "EXTRA_RULES" ∧
      (switch_to_down st).status_after_extra_rules = some STATUS_DOWN) ∧
    (st.http_status_code = some 200 →
      startLoop env st [mkStatusCodeRule pat "down" [404]] = .ok st) := by
  refine ⟨?_, ?_, ?_⟩
  · cases hany : codes.any (fun c => st.http_status_code == some c) with
    | false =>
      simp [switch_from_status_code_rule, mkStatusCodeRule, Rule.hasKey,
        Rule.find, List.lookup, isStrEq, PyVal.toPyIter, allNeqCode_map_int,
        hany]
    | true =>
      rcases htr with h | h <;> subst h <;>
        simp [switch_from_status_code_rule, mkStatusCodeRule, Rule.hasKey,
          Rule.find, List.lookup, isStrEq, PyVal.toPyIter, allNeqCode_map_int,
          hany]
  · intro h404
    refine ⟨?_, rfl, rfl, rfl⟩
    unfold startLoop
    simp [mkStatusCodeRule, Rule.hasKey, Rule.find, List.lookup, isStrEq,
      hmatch, hflag, optTruthy, switch_from_status_code_rule, PyVal.toPyIter,
      allNeqCode, PyVal.toPyInt, h404, startLoop]
  · intro h200
    unfold startLoop
    simp [mkStatusCodeRule, Rule.hasKey, Rule.find, List.lookup, isStrEq,
      hmatch, hflag, optTruthy, switch_from_status_code_rule, PyVal.toPyIter,
      allNeqCode, PyVal.toPyInt, h200, startLoop]

/-!
Section: Claim theorems: the URL availability pipeline
-/

/-- C1: `query_status` never returns an unresolved verdict — every
normally-completing run carries a set status, and whenever the probe
sequence ends with the status still unset, the fallback stage forces
`DOWN` with source `STDLOOKUP`. -/
theorem c1_pipeline_never_unresolved (penv : ProbeEnv) (flags : CheckerFlags)
    (renv : RulesEnv) (rulesets : List Rule)
    (st st' : AvailabilityCheckerStatus)
    (hrun : query_status penv flags renv rulesets st = .ok st') :
    st'.status.isSome = true ∧
    ((query_status_probes penv flags st).1.status = none →
      query_status_fallback (query_status_probes penv flags st).1
        = { (query_status_probes penv flags st).1 with
            status := some STATUS_DOWN, status_source := some "STDLOOKUP" }) := by
  constructor
  · have hfb : (query_status_fallback
        (query_status_probes penv flags st).1).status.isSome = true := by
      unfold query_status_fallback
      split
      · simp
      · rename_i hcond
        simp only [Bool.not_eq_true', Bool.not_eq_false] at hcond
        exact optTruthy_isSome hcond
    unfold query_status at hrun
    split at hrun
    · exact startLoop_isSome hrun hfb
    · cases hrun; exact hfb
  · intro hnone
    simp [query_status_fallback, hnone, optTruthy]

/-- C1 witness: with every optional probe disabled and no probe signal,
the checker still returns `DOWN`/`STDLOOKUP`. -/
theorem c1_pipeline_never_unresolved_witness :
    (({ freshStatusNoUrl with
        status := some STATUS_DOWN
        status_source := some "STDLOOKUP" } :
          AvailabilityCheckerStatus).status.isSome = true) ∧
    ((query_status_probes quietProbes ⟨false, false, false⟩ freshStatusNoUrl).1.status
        = none →
      query_status_fallback
          (query_status_probes quietProbes ⟨false, false, false⟩ freshStatusNoUrl).1
        = { (query_status_probes quietProbes ⟨false, false, false⟩ freshStatusNoUrl).1
            with status := some STATUS_DOWN, status_source := some "STDLOOKUP" }) :=
  c1_pipeline_never_unresolved quietProbes ⟨false, false, false⟩ sampleEnv []
    freshStatusNoUrl
    { freshStatusNoUrl with
      status := some STATUS_DOWN
      status_source := some "STDLOOKUP" }
    (by rfl)

/-- C2: the URL DNS probe is a down-only switch — an `UP` verdict out
of the underlying lookup is reset to unset status and source, and in
every other case (including lookup failure) the status is forced to
`DOWN`/`DNSLOOKUP`; consequently, with extra rules disabled and no
earlier verdict, a DNS failure on a URL-syntax subject makes the final
verdict `DOWN`/`DNSLOOKUP` no matter what the HTTP status-code probe
would have reported. -/
theorem c2_dns_down_only_switch (penv : ProbeEnv) (flags : CheckerFlags)
    (renv : RulesEnv) (rulesets : List Rule) (st : AvailabilityCheckerStatus)
    (hstat : st.status = none)
    ( hurl : st.url_syntax_ok = true)
    (hxr : flags.use_extra_rules = false)
    (hdns : penv.dns_success = false)
    (hrep : flags.use_reputation_lookup = false ∨ penv.reputation_malicious = false) :
    (∀ penv2 st2, st2.status ≠ some STATUS_UP →
      (penv2.dns_success = true →
        (try_to_query_status_from_dns penv2 st2).status = none ∧
        (try_to_query_status_from_dns penv2 st2).status_source = none) ∧
      (penv2.dns_success = false →
        (try_to_query_status_from_dns penv2 st2).status = some STATUS_DOWN ∧
        (try_to_query_status_from_dns penv2 st2).status_source = some "DNSLOOKUP")) ∧
    (∃ st', query_status penv flags renv rulesets st = .ok st' ∧
      st'.status = some STATUS_DOWN ∧ st'.status_source = some "DNSLOOKUP") := by
  have fUpUp : ((some STATUS_UP : Option String) == some STATUS_UP) = true := rfl
  have fDownTruthy : optTruthy (some STATUS_DOWN) = true := rfl
  have fDownNone : ((some STATUS_DOWN : Option String) == (none : Option String))
      = false := rfl
  constructor
  · intro penv2 st2 hne
    constructor
    · intro hsucc
      constructor <;>
        simp [try_to_query_status_from_dns, base_try_to_query_status_from_dns,
          hsucc, fUpUp]
    · intro hfail
      have hb : (st2.status == some STATUS_UP) = false := beq_eq_false_iff_ne.mpr hne
      constructor <;>
        simp [try_to_query_status_from_dns, base_try_to_query_status_from_dns,
          hfail, hb]
  · have hb0 : ((none : Option String) == some STATUS_UP) = false := rfl
    have hpr : (query_status_probes penv flags st).1
        = { st with
            status := some STATUS_DOWN
            status_source := some "DNSLOOKUP" } := by
      have fNone : optTruthy (none : Option String) = false := rfl
      unfold query_status_probes
      rcases hrep with h | h <;> cases hd : flags.do_syntax_check_first <;>
        simp [hstat, hurl, hdns, h, hd, fNone, should_we_continue_test,
          try_to_query_status_from_syntax_lookup,
          try_to_query_status_from_reputation, try_to_query_status_from_dns,
          base_try_to_query_status_from_dns, hb0, fDownTruthy, fDownNone]
    refine ⟨{ st with
      status := some STATUS_DOWN
      status_source := some "DNSLOOKUP" }, ?_, rfl, rfl⟩
    simp [query_status, hxr, hpr, query_status_fallback, fDownTruthy]

/-- C2 witness: the concrete scenario — DNS failure on a URL subject
while the HTTP probe would report an `up` 200. -/
theorem c2_dns_down_only_switch_witness :
    ((∀ penv2 st2, st2.status ≠ some STATUS_UP →
      (penv2.dns_success = true →
        (try_to_query_status_from_dns penv2 st2).status = none ∧
        (try_to_query_status_from_dns penv2 st2).status_source = none) ∧
      (penv2.dns_success = false →
        (try_to_query_status_from_dns penv2 st2).status = some STATUS_DOWN ∧
        (try_to_query_status_from_dns penv2 st2).status_source = some "DNSLOOKUP")) ∧
    (∃ st', query_status dnsFailProbes ⟨false, false, true⟩ sampleEnv [] freshStatus
        = .ok st' ∧
      st'.status = some STATUS_DOWN ∧ st'.status_source = some "DNSLOOKUP")) :=
  c2_dns_down_only_switch dnsFailProbes ⟨false, false, true⟩ sampleEnv []
    freshStatus rfl rfl rfl rfl (Or.inl rfl)

/-- C6 witness: the concrete 404 scenario. -/
theorem c6_status_code_rule_or_semantics_witness :
    switch_from_status_code_rule sampleStatus404 (mkStatusCodeRule ".*" "down" [404])
      = .ok (if [(404 : Int)].any
              (fun c => sampleStatus404.http_status_code == some c) then
               (if "down" == "up" then switch_to_up sampleStatus404
                else switch_to_down sampleStatus404)
             else sampleStatus404) :=
  (c6_status_code_rule_or_semantics sampleEnv sampleStatus404 ".*" "down" [404]
    rfl rfl (Or.inr rfl)).1

/-!
Section: Shared lemmas: the Requester
-/

theorem recreate_after_error {p : Requester × Option PyErr} {e : PyErr}
    (h : (recreate_after p).2 = some e) : recreate_after p = p := by
  obtain ⟨r1, e1⟩ := p
  cases e1 with
  | some err => rfl
  | none =>
    unfold recreate_after at h ⊢
    cases hs : r1.session with
    | none => rfl
    | some s => rw [hs] at h; simp at h

theorem set_rebuild_generic (r : Requester) (s : Session)
    (p : Requester × Option PyErr)
    (hsess : p.1.session = r.session)
    (hcnt : p.1.session_counter = r.session_counter)
    (hs : r.session = some s) (hlt : s.sid < r.session_counter)
    (h2 : (recreate_after p).2 = none) :
    ∃ s', (recreate_after p).1.session = some s' ∧ s'.sid ≠ s.sid ∧
      s'.adapter_timeout = (recreate_after p).1.rq_timeout ∧
      s'.adapter_max_retries = (recreate_after p).1.rq_max_retries ∧
      s'.verify = (recreate_after p).1.rq_verify_certificate ∧
      s'.session_max_redirects = (recreate_after p).1.rq_max_redirects ∧
      s'.adapter_proxy_pattern = (recreate_after p).1.rq_proxy_pattern := by
  obtain ⟨r1, e1⟩ := p
  cases e1 with
  | some err => simp [recreate_after] at h2
  | none =>
    simp only at hsess hcnt
    rw [hs] at hsess
    unfold recreate_after get_session
    simp only [hsess]
    refine ⟨_, rfl, ?_, rfl, rfl, rfl, rfl, rfl⟩
    simp only
    omega

theorem timeout_body_preserves (r : Requester) (v : PyVal) :
    (timeout_setter_body r v).1.session = r.session ∧
    (timeout_setter_body r v).1.session_counter = r.session_counter := by
  unfold timeout_setter_body
  split
  · exact ⟨rfl, rfl⟩
  split
  · exact ⟨rfl, rfl⟩
  · exact ⟨rfl, rfl⟩

theorem max_retries_body_preserves (r : Requester) (v : PyVal) :
    (max_retries_setter_body r v).1.session = r.session ∧
    (max_retries_setter_body r v).1.session_counter = r.session_counter := by
  unfold max_retries_setter_body
  split
  · exact ⟨rfl, rfl⟩
  split
  · exact ⟨rfl, rfl⟩
  · exact ⟨rfl, rfl⟩

theorem max_redirects_body_preserves (r : Requester) (v : PyVal) :
    (max_redirects_setter_body r v).1.session = r.session ∧
    (max_redirects_setter_body r v).1.session_counter = r.session_counter := by
  unfold max_redirects_setter_body
  split
  · exact ⟨rfl, rfl⟩
  split
  · exact ⟨rfl, rfl⟩
  · exact ⟨rfl, rfl⟩

theorem verify_certificate_body_preserves (r : Requester) (v : PyVal) :
    (verify_certificate_setter_body r v).1.session = r.session ∧
    (verify_certificate_setter_body r v).1.session_counter = r.session_counter := by
  unfold verify_certificate_setter_body
  split <;> exact ⟨rfl, rfl⟩

theorem proxy_pattern_body_preserves (r : Requester) (v : PyVal) :
    (proxy_pattern_setter_body r v).1.session = r.session ∧
    (proxy_pattern_setter_body r v).1.session_counter = r.session_counter := by
  unfold proxy_pattern_setter_body
  split <;> exact ⟨rfl, rfl⟩

theorem timeout_body_error (r : Requester) (v : PyVal) (e : PyErr)
    (h : (timeout_setter_body r v).2 = some e) :
    (timeout_setter_body r v).1 = r := by
  unfold timeout_setter_body at h ⊢
  split at h
  · rename_i hc
    simp [hc]
  · rename_i hc
    split at h
    · rename_i hc2
      simp [hc, hc2]
    · simp at h

theorem max_retries_body_error (r : Requester) (v : PyVal) (e : PyErr)
    (h : (max_retries_setter_body r v).2 = some e) :
    (max_retries_setter_body r v).1 = r := by
  unfold max_retries_setter_body at h ⊢
  split at h
  · rename_i hc
    simp [hc]
  · rename_i hc
    split at h
    · rename_i hc2
      simp [hc, hc2]
    · simp at h

theorem max_redirects_body_error (r : Requester) (v : PyVal) (e : PyErr)
    (h : (max_redirects_setter_body r v).2 = some e) :
    (max_redirects_setter_body r v).1 = r := by
  unfold max_redirects_setter_body at h ⊢
  split at h
  · rename_i hc
    simp [hc]
  · rename_i hc
    split at h
    · rename_i hc2
      simp [hc, hc2]
    · simp at h

theorem verify_certificate_body_error (r : Requester) (v : PyVal) (e : PyErr)
    (h : (verify_certificate_setter_body r v).2 = some e) :
    (verify_certificate_setter_body r v).1 = r := by
  unfold verify_certificate_setter_body at h ⊢
  split at h
  · simp at h
  · rfl

theorem proxy_pattern_body_error (r : Requester) (v : PyVal) (e : PyErr)
    (h : (proxy_pattern_setter_body r v).2 = some e) :
    (proxy_pattern_setter_body r v).1 = r := by
  unfold proxy_pattern_setter_body at h ⊢
  split at h
  · simp at h
  · rfl

/-!
Section: Claim theorems: the Requester
-/

/-- C7: the spec says a `Requester` constructed without an explicit
`verify_certificate`, against an absent or malformed configuration,
falls back to the hard-coded default `False`.  That holds when the
configuration read yields a non-boolean, but when the read raises, the
`except` branch of `guess_and_set_verify_certificate` calls
`set_max_retries(STD_MAX_RETRIES)` instead: `verify_certificate` stays
at its class default `True` and `max_retries` is clobbered to `3`. -/
theorem c7_verify_certificate_guess_bug :
    STD_VERIFY_CERTIFICATE = false ∧
    (guess_and_set_verify_certificate ConfigRead.raise {}).rq_verify_certificate
      = true ∧
    (guess_and_set_verify_certificate ConfigRead.raise {}).rq_max_retries = 3 ∧
    (requester_init (.ok (.dict [])) ConfigRead.raise (.ok (.dict []))
      (.ok (.dict []))).rq_verify_certificate = true ∧
    (guess_and_set_verify_certificate (.ok (.dict [])) {}).rq_verify_certificate
      = false :=
  ⟨rfl, rfl, rfl, rfl, rfl⟩

/-- C8: each explicit configuration setter validates its input —
`timeout` rejects non-numerics with `TypeError` and negatives with
`ValueError`; `max_retries` rejects non-ints and negatives;
`max_redirects` rejects non-ints and values below 1; `proxy_pattern`
rejects non-dicts; and every value satisfying the constraint is
accepted without raising. -/
theorem c8_setter_validation (r : Requester) :
    (∀ v, isInstNum v = false → timeout_set r v = (r, some PyErr.typeError)) ∧
    (∀ v, isInstNum v = true → pyNumVal v < 0 →
      timeout_set r v = (r, some PyErr.valueError)) ∧
    (∀ v, isInstNum v = true → 0 ≤ pyNumVal v →
      (timeout_set r v).2 = none ∧ (timeout_set r v).1.rq_timeout = pyNumVal v) ∧
    (∀ v, isInstInt v = false → max_retries_set r v = (r, some PyErr.typeError)) ∧
    (∀ v, isInstInt v = true → pyIntVal v < 0 →
      max_retries_set r v = (r, some PyErr.valueError)) ∧
    (∀ v, isInstInt v = true → 0 ≤ pyIntVal v →
      (max_retries_set r v).2 = none ∧
      (max_retries_set r v).1.rq_max_retries = pyIntVal v) ∧
    (∀ v, isInstInt v = false → max_redirects_set r v = (r, some PyErr.typeError)) ∧
    (∀ v, isInstInt v = true → pyIntVal v < 1 →
      max_redirects_set r v = (r, some PyErr.valueError)) ∧
    (∀ v, isInstInt v = true → 1 ≤ pyIntVal v →
      (max_redirects_set r v).2 = none ∧
      (max_redirects_set r v).1.rq_max_redirects = pyIntVal v) ∧
    (∀ v, isInstDict v = false → proxy_pattern_set r v = (r, some PyErr.typeError)) ∧
    (∀ d, (proxy_pattern_set r (PyVal.dict d)).2 = none ∧
      (proxy_pattern_set r (PyVal.dict d)).1.rq_proxy_pattern = d) := by
  refine ⟨?_, ?_, ?_, ?_, ?_, ?_, ?_, ?_, ?_, ?_, ?_⟩
  · intro v h
    simp [timeout_set, timeout_setter_body, recreate_after, h]
  · intro v h hlt
    simp [timeout_set, timeout_setter_body, recreate_after, h, hlt,
      not_le.mpr hlt]
  · intro v h hge
    have hnlt : ¬(pyNumVal v < 0) := not_lt.mpr hge
    cases hs : r.session <;>
      simp [timeout_set, timeout_setter_body, recreate_after, get_session,
        h, hnlt, hs]
  · intro v h
    simp [max_retries_set, max_retries_setter_body, recreate_after, h]
  · intro v h hlt
    simp [max_retries_set, max_retries_setter_body, recreate_after, h, hlt]
  · intro v h hge
    have hnlt : ¬(pyIntVal v < 0) := not_lt.mpr hge
    cases hs : r.session <;>
      simp [max_retries_set, max_retries_setter_body, recreate_after,
        get_session, h, hnlt, hs]
  · intro v h
    simp [max_redirects_set, max_redirects_setter_body, recreate_after, h]
  · intro v h hlt
    simp [max_redirects_set, max_redirects_setter_body, recreate_after, h, hlt]
  · intro v h hge
    have hnlt : ¬(pyIntVal v < 1) := not_lt.mpr hge
    cases hs : r.session <;>
      simp [max_redirects_set, max_redirects_setter_body, recreate_after,
        get_session, h, hnlt, hs]
  · intro v h
    cases v <;> simp_all [proxy_pattern_set, proxy_pattern_setter_body,
      recreate_after, isInstDict]
  · intro d
    cases hs : r.session <;>
      simp [proxy_pattern_set, proxy_pattern_setter_body, recreate_after,
        get_session, hs]

/-- C8 witness: the `timeout` setter at concrete rejected and accepted
inputs. -/
theorem c8_setter_validation_witness :
    timeout_set sampleRequester (PyVal.str "x")
      = (sampleRequester, some PyErr.typeError) ∧
    timeout_set sampleRequester (PyVal.float (-1))
      = (sampleRequester, some PyErr.valueError) ∧
    (timeout_set sampleRequester (PyVal.float 7)).2 = none ∧
    (timeout_set sampleRequester (PyVal.float 7)).1.rq_timeout
      = pyNumVal (PyVal.float 7) :=
  ⟨(c8_setter_validation sampleRequester).1 (PyVal.str "x") rfl,
   (c8_setter_validation sampleRequester).2.1 (PyVal.float (-1)) rfl (by norm_num [pyNumVal]),
   ((c8_setter_validation sampleRequester).2.2.1 (PyVal.float 7) rfl
      (by norm_num [pyNumVal])).1,
   ((c8_setter_validation sampleRequester).2.2.1 (PyVal.float 7) rfl
      (by norm_num [pyNumVal])).2⟩

/-- C9: after any successful change of one of the five configuration
fields on a `Requester` whose session exists, the session object is
replaced by a freshly constructed one (new identity) whose session
settings and adapter parameters are read from the updated
configuration, so the next request uses the new value. -/
theorem c9_session_rebuild (r : Requester) (s : Session) (v : PyVal)
    (hs : r.session = some s) (hwf : sessionWf r) :
    ((timeout_set r v).2 = none → ∃ s',
      (timeout_set r v).1.session = some s' ∧ s'.sid ≠ s.sid ∧
      s'.adapter_timeout = (timeout_set r v).1.rq_timeout ∧
      s'.adapter_max_retries = (timeout_set r v).1.rq_max_retries ∧
      s'.verify = (timeout_set r v).1.rq_verify_certificate ∧
      s'.session_max_redirects = (timeout_set r v).1.rq_max_redirects ∧
      s'.adapter_proxy_pattern = (timeout_set r v).1.rq_proxy_pattern) ∧
    ((max_retries_set r v).2 = none → ∃ s',
      (max_retries_set r v).1.session = some s' ∧ s'.sid ≠ s.sid ∧
      s'.adapter_timeout = (max_retries_set r v).1.rq_timeout ∧
      s'.adapter_max_retries = (max_retries_set r v).1.rq_max_retries ∧
      s'.verify = (max_retries_set r v).1.rq_verify_certificate ∧
      s'.session_max_redirects = (max_retries_set r v).1.rq_max_redirects ∧
      s'.adapter_proxy_pattern = (max_retries_set r v).1.rq_proxy_pattern) ∧
    ((max_redirects_set r v).2 = none → ∃ s',
      (max_redirects_set r v).1.session = some s' ∧ s'.sid ≠ s.sid ∧
      s'.adapter_timeout = (max_redirects_set r v).1.rq_timeout ∧
      s'.adapter_max_retries = (max_redirects_set r v).1.rq_max_retries ∧
      s'.verify = (max_redirects_set r v).1.rq_verify_certificate ∧
      s'.session_max_redirects = (max_redirects_set r v).1.rq_max_redirects ∧
      s'.adapter_proxy_pattern = (max_redirects_set r v).1.rq_proxy_pattern) ∧
    ((verify_certificate_set r v).2 = none → ∃ s',
      (verify_certificate_set r v).1.session = some s' ∧ s'.sid ≠ s.sid ∧
      s'.adapter_timeout = (verify_certificate_set r v).1.rq_timeout ∧
      s'.adapter_max_retries = (verify_certificate_set r v).1.rq_max_retries ∧
      s'.verify = (verify_certificate_set r v).1.rq_verify_certificate ∧
      s'.session_max_redirects = (verify_certificate_set r v).1.rq_max_redirects ∧
      s'.adapter_proxy_pattern = (verify_certificate_set r v).1.rq_proxy_pattern) ∧
    ((proxy_pattern_set r v).2 = none → ∃ s',
      (proxy_pattern_set r v).1.session = some s' ∧ s'.sid ≠ s.sid ∧
      s'.adapter_timeout = (proxy_pattern_set r v).1.rq_timeout ∧
      s'.adapter_max_retries = (proxy_pattern_set r v).1.rq_max_retries ∧
      s'.verify = (proxy_pattern_set r v).1.rq_verify_certificate ∧
      s'.session_max_redirects = (proxy_pattern_set r v).1.rq_max_redirects ∧
      s'.adapter_proxy_pattern = (proxy_pattern_set r v).1.rq_proxy_pattern) := by
  have hlt := hwf s hs
  refine ⟨fun h2 => ?_, fun h2 => ?_, fun h2 => ?_, fun h2 => ?_, fun h2 => ?_⟩
  · exact set_rebuild_generic r s _ (timeout_body_preserves r v).1
      (timeout_body_preserves r v).2 hs hlt h2
  · exact set_rebuild_generic r s _ (max_retries_body_preserves r v).1
      (max_retries_body_preserves r v).2 hs hlt h2
  · exact set_rebuild_generic r s _ (max_redirects_body_preserves r v).1
      (max_redirects_body_preserves r v).2 hs hlt h2
  · exact set_rebuild_generic r s _ (verify_certificate_body_preserves r v).1
      (verify_certificate_body_preserves r v).2 hs hlt h2
  · exact set_rebuild_generic r s _ (proxy_pattern_body_preserves r v).1
      (proxy_pattern_body_preserves r v).2 hs hlt h2

/-- C9 witness: changing the timeout on the freshly constructed
requester rebuilds its session. -/
theorem c9_session_rebuild_witness :
    ∃ s',
      (timeout_set sampleRequester (PyVal.float 7)).1.session = some s' ∧
      s'.sid ≠ sampleSession.sid ∧
      s'.adapter_timeout
        = (timeout_set sampleRequester (PyVal.float 7)).1.rq_timeout ∧
      s'.adapter_max_retries
        = (timeout_set sampleRequester (PyVal.float 7)).1.rq_max_retries ∧
      s'.verify
        = (timeout_set sampleRequester (PyVal.float 7)).1.rq_verify_certificate ∧
      s'.session_max_redirects
        = (timeout_set sampleRequester (PyVal.float 7)).1.rq_max_redirects ∧
      s'.adapter_proxy_pattern
        = (timeout_set sampleRequester (PyVal.float 7)).1.rq_proxy_pattern :=
  (c9_session_rebuild sampleRequester sampleSession (PyVal.float 7) rfl
    (fun s h => by
      have h2 : some sampleSession = some s := h
      cases Option.some.inj h2
      decide)).1 rfl

/-- C10: a rejected setter value leaves the whole `Requester` state —
the stored configuration fields and the current session — unchanged:
validation precedes assignment, and the session-recreation wrapper
only rebuilds the session after the setter body returns normally. -/
theorem c10_rejected_setter_preserves_state (r : Requester) (v : PyVal)
    (e : PyErr) :
    ((timeout_set r v).2 = some e → (timeout_set r v).1 = r) ∧
    ((max_retries_set r v).2 = some e → (max_retries_set r v).1 = r) ∧
    ((max_redirects_set r v).2 = some e → (max_redirects_set r v).1 = r) ∧
    ((verify_certificate_set r v).2 = some e → (verify_certificate_set r v).1 = r) ∧
    ((proxy_pattern_set r v).2 = some e → (proxy_pattern_set r v).1 = r) := by
  refine ⟨fun h => ?_, fun h => ?_, fun h => ?_, fun h => ?_, fun h => ?_⟩
  · unfold timeout_set at h ⊢
    have heq := recreate_after_error h
    rw [heq] at h ⊢
    exact timeout_body_error r v e h
  · unfold max_retries_set at h ⊢
    have heq := recreate_after_error h
    rw [heq] at h ⊢
    exact max_retries_body_error r v e h
  · unfold max_redirects_set at h ⊢
    have heq := recreate_after_error h
    rw [heq] at h ⊢
    exact max_redirects_body_error r v e h
  · unfold verify_certificate_set at h ⊢
    have heq := recreate_after_error h
    rw [heq] at h ⊢
    exact verify_certificate_body_error r v e h
  · unfold proxy_pattern_set at h ⊢
    have heq := recreate_after_error h
    rw [heq] at h ⊢
    exact proxy_pattern_body_error r v e h

/-- C10 witness: a rejected (non-numeric) timeout leaves the requester
unchanged. -/
theorem c10_rejected_setter_preserves_state_witness :
    (timeout_set sampleRequester (PyVal.str "x")).1 = sampleRequester :=
  (c10_rejected_setter_preserves_state sampleRequester (PyVal.str "x")
    PyErr.typeError).1 rfl

end PyFun
